import Mathlib

/-!
Verification of the statistics core of the bcn-rainfall-models repository.

Modelling conventions:
* A row of the yearly-rainfall table is a `Year` (an integer) together with a
  `Rainfall` depth (a rational number); Python floats are modelled as exact
  rationals.
* Python `round(x, p)` (as well as `pandas.Series.round` and `numpy.round`,
  which the source applies to whole columns) rounds half to even;
  `roundHalfEven` reproduces that exactly on rationals.
* `pandas` DataFrame filters, column selections and row-wise sums are modelled
  as list operations.
* Code that may raise an HTTP error is modelled with `Except String`.
* Rational division by zero yields `0` in Lean; the only division-by-zero site
  kept in the model (`add_deviation_from_normal`, where pandas would silently
  produce `inf`) is never relied upon by a theorem at a zero denominator.
-/

namespace BcnRainfall

/-- One row of the yearly-rainfall table: the `Year` and `Rainfall` columns. -/
structure Row where
  year : ℤ
  rain : ℚ
deriving DecidableEq

/-- Round a rational to an integer, halves to the nearest even integer,
exactly as Python `round` does. -/
def roundHalfEven (x : ℚ) : ℤ :=
  if x - ⌊x⌋ < 1/2 then ⌊x⌋
  else if 1/2 < x - ⌊x⌋ then ⌊x⌋ + 1
  else if ⌊x⌋ % 2 = 0 then ⌊x⌋ else ⌊x⌋ + 1

/-- Python `round(x, p)` for a non-negative number of decimal places `p`,
on exact rationals. -/
def roundQ (x : ℚ) (p : ℕ) : ℚ := (roundHalfEven (x * 10 ^ p) : ℚ) / 10 ^ p

/-- Both optional bounds of a year range checked at once. -/
def within (begin_year end_year : Option ℤ) (y : ℤ) : Bool :=
  (match begin_year with | none => true | some b => decide (b ≤ y)) &&
  (match end_year with | none => true | some e => decide (y ≤ e))

/-- The rows of a table whose year lies within both optional bounds. -/
def rows_within (t : List Row) (begin_year end_year : Option ℤ) : List Row :=
  t.filter (fun r => within begin_year end_year r.year)

/-- `YearlyRainfall.get_yearly_rainfall` (src/src/classes/yearly_rainfall.py:64-75):
filters on `Year >= begin_year`, then on `Year <= end_year`, each bound optional. -/
def get_yearly_rainfall (t : List Row) (begin_year end_year : Option ℤ) : List Row :=
  let t1 := match begin_year with
    | none => t
    | some b => t.filter (fun r => decide (b ≤ r.year))
  match end_year with
  | none => t1
  | some e => t1.filter (fun r => decide (r.year ≤ e))

/-- `YearlyRainfall.get_average_yearly_rainfall`
(src/src/classes/yearly_rainfall.py:80-91): returns `0.` when the selected
range holds no year, otherwise the rainfall sum over the range divided by the
number of years, rounded to the configured precision `p`. -/
def get_average_yearly_rainfall (t : List Row) (begin_year end_year : Option ℤ) (p : ℕ) : ℚ :=
  let yr := get_yearly_rainfall t begin_year end_year
  if yr.length = 0 then 0
  else roundQ ((yr.map Row.rain).sum / yr.length) p

/-- `YearlyRainfall.get_years_below_average`
(src/src/classes/yearly_rainfall.py:93-100): the number of rows of the range
whose rainfall is strictly below the computed average. -/
def get_years_below_average (t : List Row) (begin_year end_year : Option ℤ) (p : ℕ) : ℕ :=
  ((get_yearly_rainfall t begin_year end_year).filter
    (fun r => decide (r.rain < get_average_yearly_rainfall t begin_year end_year p))).length

/-- `YearlyRainfall.get_years_above_average`
(src/src/classes/yearly_rainfall.py:102-109): the number of rows of the range
whose rainfall is strictly above the computed average. -/
def get_years_above_average (t : List Row) (begin_year end_year : Option ℤ) (p : ℕ) : ℕ :=
  ((get_yearly_rainfall t begin_year end_year).filter
    (fun r => decide (get_average_yearly_rainfall t begin_year end_year p < r.rain))).length

/-- `YearlyRainfall.add_percentage_of_normal`
(src/src/classes/yearly_rainfall.py:111-119): computes the normal as the
average over the given range; when it is `0.` the method returns early,
leaving the table unchanged and adding no column (the `none` below); otherwise
it adds the rounded percentage-of-normal column. The `Except` result records
whether an error is raised: the source never raises here. -/
def add_percentage_of_normal (t : List Row) (begin_year end_year : Option ℤ) (p : ℕ) :
    Except String (List Row × Option (List ℚ)) :=
  let normal := get_average_yearly_rainfall t begin_year end_year p
  if normal = 0 then .ok (t, none)
  else .ok (t, some (t.map (fun r => roundQ (r.rain / normal * 100) p)))

/-- `get_average_yearly_rainfall` of src/src/main.py:28-33: filters
`Year <= end_year` then `begin_year <= Year`, and divides the rainfall sum by
`end_year - begin_year` before rounding to 2 decimal places. -/
def main_get_average_yearly_rainfall (t : List Row) (begin_year end_year : ℤ) : ℚ :=
  let t1 := (t.filter (fun r => decide (r.year ≤ end_year))).filter
    (fun r => decide (begin_year ≤ r.year))
  roundQ ((t1.map Row.rain).sum / ((end_year - begin_year : ℤ) : ℚ)) 2

/-- `add_deviation_from_normal` of src/src/main.py:55-56: attaches to every
row the column `round(rainfall / normal * 100.0, 2)`, with no guard on
`normal` (pandas would silently produce `inf` columns at `normal = 0`;
the rational model yields `0`). -/
def add_deviation_from_normal (t : List Row) (normal : ℚ) : List (Row × ℚ) :=
  t.map (fun r => (r, roundQ (r.rain / normal * 100) 2))

/-- `count_years_above_normal` of src/src/main.py:59-60: counts the rows whose
percentage-of-normal column is strictly above `100.0`. -/
def count_years_above_normal (t : List (Row × ℚ)) : ℕ :=
  (t.filter (fun rp => decide ((100 : ℚ) < rp.2))).length

/-- `count_years_below_normal` of src/src/main.py:63-64: counts the rows whose
percentage-of-normal column is strictly below `100.0`. -/
def count_years_below_normal (t : List (Row × ℚ)) : ℕ :=
  (t.filter (fun rp => decide (rp.2 < (100 : ℚ)))).length

/-- The number of rows, as a rational. -/
def nQ (l : List Row) : ℚ := l.length

/-- Sum of the years of a table, as rationals. -/
def Sx (l : List Row) : ℚ := (l.map (fun r => ((r.year : ℚ)))).sum

/-- Sum of the rainfall values of a table. -/
def Sy (l : List Row) : ℚ := (l.map Row.rain).sum

/-- Sum of the squared years of a table. -/
def Sxx (l : List Row) : ℚ := (l.map (fun r => ((r.year : ℚ)) ^ 2)).sum

/-- Sum of year times rainfall over a table. -/
def Sxy (l : List Row) : ℚ := (l.map (fun r => ((r.year : ℚ)) * r.rain)).sum

/-- The slope of the ordinary-least-squares fit of rainfall against year,
in closed form; this is the exact value of `LinearRegression().fit().coef_[0]`
computed by `YearlyRainfall.add_linear_regression`
(src/src/classes/yearly_rainfall.py:121-133) and by
`apply_linear_regression_to_yearly_rainfall` (src/src/main.py:36-44). -/
def ols_slope (l : List Row) : ℚ :=
  (nQ l * Sxy l - Sx l * Sy l) / (nQ l * Sxx l - Sx l ^ 2)

/-- The intercept of the ordinary-least-squares fit. -/
def ols_intercept (l : List Row) : ℚ := (Sy l - ols_slope l * Sx l) / nQ l

/-- The fitted value `reg.predict` at abscissa `x`. -/
def ols_fit (l : List Row) (x : ℚ) : ℚ := ols_slope l * x + ols_intercept l

/-- Residual sum of squares of the fit, on the exact fitted values
(src/src/main.py keeps the predictions unrounded). -/
def ss_res (l : List Row) : ℚ := (l.map (fun r => (r.rain - ols_fit l r.year) ^ 2)).sum

/-- Residual sum of squares on the fitted values rounded to precision `p`,
as `YearlyRainfall.add_linear_regression` rounds the prediction column before
scoring it (src/src/classes/yearly_rainfall.py:127-132). -/
def ss_res_rounded (l : List Row) (p : ℕ) : ℚ :=
  (l.map (fun r => (r.rain - roundQ (ols_fit l r.year) p) ^ 2)).sum

/-- Total sum of squares of the rainfall values about their mean. -/
def ss_tot (l : List Row) : ℚ := (l.map (fun r => (r.rain - Sy l / nQ l) ^ 2)).sum

/-- `sklearn.metrics.r2_score` on exact numbers: `1 - ss_res / ss_tot`, with
the degenerate convention that a zero denominator gives `1.0` for a perfect
prediction and `0.0` otherwise. -/
def r2_score (ssr sst : ℚ) : ℚ := if sst = 0 then (if ssr = 0 then 1 else 0) else 1 - ssr / sst

/-- The coefficient of determination printed by
`apply_linear_regression_to_yearly_rainfall` (src/src/main.py:41-42), scored
on the unrounded prediction column. -/
def apply_linear_regression_r2 (l : List Row) : ℚ := r2_score (ss_res l) (ss_tot l)

/-- `YearlyRainfall.add_linear_regression`
(src/src/classes/yearly_rainfall.py:121-133): returns the pair of the
coefficient of determination — scored against the prediction column rounded to
precision `p` — and the unrounded slope `reg.coef_[0]`. -/
def add_linear_regression (l : List Row) (p : ℕ) : ℚ × ℚ :=
  (r2_score (ss_res_rounded l p) (ss_tot l), ols_slope l)

/-- Modelled from the spec: `get_normal` of the rainfall model class
(back/rainfall/models/yearly_rainfall.py is not under src/; only its tests and
callers are). Spec section 4.3: a normal anchored at `start_year` is the
average over the closed 30-year range starting there. -/
def get_normal (t : List Row) (start_year : ℤ) (p : ℕ) : ℚ :=
  get_average_yearly_rainfall t (some start_year) (some (start_year + 29)) p

/-- Modelled from the spec: the square of `get_standard_deviation` of the
rainfall model class (back/rainfall/models/yearly_rainfall.py is not under
src/). Spec section 4.1: the population standard deviation of rainfall in the
range, so its square is the population variance; the empty range yields the
degenerate value 0. The square is used so the model stays within rationals. -/
def get_standard_deviation_squared (t : List Row) (begin_year end_year : Option ℤ) : ℚ :=
  let yr := get_yearly_rainfall t begin_year end_year
  if yr.length = 0 then 0
  else ((yr.map (fun r => (r.rain - (yr.map Row.rain).sum / yr.length) ^ 2)).sum) / yr.length

/-- `get_rainfall_normal` of back/api/app.py:83-106: FastAPI validates the
query parameter `begin_year` against `Query(ge=min_year_available,
le=max_normal_year_available)` where `max_normal_year_available =
max_year_available - 29` (back/api/app.py:22-24), then answers with the normal
anchored at `begin_year` and reports the range `[begin_year, begin_year+29]`. -/
def get_rainfall_normal_route (t : List Row) (p : ℕ) (min_year max_year begin_year : ℤ) :
    Except String ℚ :=
  if min_year ≤ begin_year ∧ begin_year ≤ max_year - 29 then
    .ok (get_normal t begin_year p)
  else .error "begin_year is outside the allowed query bounds"

/-- `get_rainfall_average` of back/api/app.py:44-72: FastAPI validates
`begin_year` and, when given, `end_year` against
`Query(ge=min_year_available, le=max_year_available)`; a missing `end_year`
defaults to `max_year_available`; then `raise_year_related_error_or_do_nothing`
runs before the average is computed. That helper lives in back/api/utils,
which is not under src/, and is modelled from the spec (section 7: a range
with `begin > end` is rejected before computation). -/
def get_rainfall_average_route (t : List Row) (p : ℕ) (min_year max_year begin_year : ℤ)
    (end_year : Option ℤ) : Except String ℚ :=
  if min_year ≤ begin_year ∧ begin_year ≤ max_year then
    if end_year.all (fun e => decide (min_year ≤ e ∧ e ≤ max_year)) then
      if begin_year ≤ end_year.getD max_year then
        .ok (get_average_yearly_rainfall t (some begin_year) (some (end_year.getD max_year)) p)
      else .error "begin_year must not be after end_year"
    else .error "end_year is outside the allowed query bounds"
  else .error "begin_year is outside the allowed query bounds"

/-- A pandas DataFrame holding rainfall data: labelled columns of rationals. -/
structure DataFrame where
  cols : List (String × List ℚ)
deriving DecidableEq

/-- The column labels of a DataFrame, in order. -/
abbrev dfLabels (d : DataFrame) : List String := d.cols.map Prod.fst

/-- A well-formed rainfall DataFrame: labels are distinct and the two base
columns `Year` and `Rainfall` are present (pandas `columns.drop` would raise a
`KeyError` without them). -/
abbrev dfWF (d : DataFrame) : Prop :=
  (dfLabels d).Nodup ∧ "Year" ∈ dfLabels d ∧ "Rainfall" ∈ dfLabels d

/-- `remove_column` (back/core/utils/functions/dataframe_operations.py:33-48):
when the label is not among the columns with `Year` and `Rainfall` dropped, it
returns `False` and changes nothing; otherwise it pops the column and returns
`True`. -/
def remove_column (d : DataFrame) (label : String) : Bool × DataFrame :=
  if label ∈ (dfLabels d).filter (fun l => !(l == "Year") && !(l == "Rainfall")) then
    (true, ⟨d.cols.filter (fun c => !(c.1 == label))⟩)
  else (false, d)

/-- The raw monthly dataset: column 0 holds the years, and `months` holds the
remaining columns (January = column 1, and so on). -/
structure MonthlyDF where
  years : List ℤ
  months : List (List ℚ)
deriving DecidableEq

/-- The pandas selection `iloc[:, a:b]` of month columns (1-based DataFrame
column indices, the slice excluding `b`), which clamps like a Python slice. -/
def monthCols (m : MonthlyDF) (a b : ℕ) : List (List ℚ) :=
  (m.months.drop (a - 1)).take (b - a)

/-- Row-wise sums, `DataFrame.sum(axis='columns')`, over `n` rows. -/
def sum_rows (cols : List (List ℚ)) (n : ℕ) : List ℚ :=
  (List.range n).map (fun j => (cols.map (fun c => c.getD j 0)).sum)

/-- The tail shared by both loaders: pair the year column with the row-wise
rainfall sums, keep the years at or after `starting_year` (`reset_index` and
`drop(columns='index')` do not change the rows), and round the rainfall column
to precision `p`. -/
def build_yearly (m : MonthlyDF) (cols : List (List ℚ)) (starting_year : ℤ) (p : ℕ) :
    List Row :=
  (((m.years.zip (sum_rows cols m.years.length)).map (fun yr => Row.mk yr.1 yr.2)).filter
    (fun r => decide (starting_year ≤ r.year))).map (fun r => ⟨r.year, roundQ r.rain p⟩)

/-- `YearlyRainfall.load_rainfall` (src/src/classes/yearly_rainfall.py:40-62):
with an `end_month` before `start_month` it sums the single `start_month`
column together with columns `1:end_month`; otherwise it sums the slice
`start_month:end_month` (all remaining months when `end_month` is `None`).
Both slices exclude `end_month` itself. -/
def load_rainfall (m : MonthlyDF) (starting_year : ℤ) (p : ℕ) (start_month : ℕ)
    (end_month : Option ℕ) : List Row :=
  let cols := match end_month with
    | some e =>
      if e < start_month then
        monthCols m start_month (start_month + 1) ++ monthCols m 1 e
      else monthCols m start_month e
    | none => m.months.drop (start_month - 1)
  build_yearly m cols starting_year p

/-- `retrieve_rainfall_data_with_constraints`
(back/core/utils/functions/dataframe_operations.py:62-111): with an
`end_month` before `start_month` it sums the single `start_month` column
together with columns `1:end_month+1`; otherwise it sums the slice
`start_month:(end_month or start_month)+1`. Both slices include `end_month`
itself, and a missing `end_month` selects `start_month` alone. -/
def retrieve_rainfall_data_with_constraints (m : MonthlyDF) (starting_year : ℤ) (p : ℕ)
    (start_month : ℕ) (end_month : Option ℕ) : List Row :=
  let cols := match end_month with
    | some e =>
      if e < start_month then
        monthCols m start_month (start_month + 1) ++ monthCols m 1 (e + 1)
      else monthCols m start_month (e + 1)
    | none => monthCols m start_month (start_month + 1)
  build_yearly m cols starting_year p

/-- The least element of a list of rationals (0 for the empty list). -/
def list_min : List ℚ → ℚ
  | [] => 0
  | x :: xs => xs.foldl min x

/-- The greatest element of a list of rationals (0 for the empty list). -/
def list_max : List ℚ → ℚ
  | [] => 0
  | x :: xs => xs.foldl max x

/-! Rounding lemmas. -/

theorem roundHalfEven_eq_down (x : ℚ) (f : ℤ) (h1 : (f : ℚ) ≤ x) (h2 : x - f < 1/2) :
    roundHalfEven x = f := by
  have hf : ⌊x⌋ = f := Int.floor_eq_iff.mpr ⟨h1, by linarith⟩
  rw [roundHalfEven, hf, if_pos (by linarith)]

theorem roundHalfEven_eq_up (x : ℚ) (f : ℤ) (h1 : (f : ℚ) + 1/2 < x) (h2 : x < f + 1) :
    roundHalfEven x = f + 1 := by
  have hf : ⌊x⌋ = f := Int.floor_eq_iff.mpr ⟨by linarith, by linarith⟩
  rw [roundHalfEven, hf, if_neg (by linarith), if_pos (by linarith)]

theorem roundHalfEven_eq_tie_even (x : ℚ) (f : ℤ) (hx : x = f + 1/2) (he : f % 2 = 0) :
    roundHalfEven x = f := by
  have hf : ⌊x⌋ = f := Int.floor_eq_iff.mpr ⟨by linarith, by linarith⟩
  rw [roundHalfEven, hf, if_neg (by linarith), if_neg (by linarith), if_pos he]

theorem le_roundHalfEven (x : ℚ) : x - 1/2 ≤ (roundHalfEven x : ℚ) := by
  have h1 : (⌊x⌋ : ℚ) ≤ x := Int.floor_le x
  have h2 : x < ⌊x⌋ + 1 := Int.lt_floor_add_one x
  rw [roundHalfEven]
  split_ifs <;> push_cast <;> linarith

theorem roundHalfEven_le (x : ℚ) : (roundHalfEven x : ℚ) ≤ x + 1/2 := by
  have h1 : (⌊x⌋ : ℚ) ≤ x := Int.floor_le x
  have h2 : x < ⌊x⌋ + 1 := Int.lt_floor_add_one x
  rw [roundHalfEven]
  split_ifs <;> push_cast <;> linarith

theorem roundQ_eval (x : ℚ) (p : ℕ) (f : ℤ) (h : roundHalfEven (x * 10 ^ p) = f) :
    roundQ x p = f / 10 ^ p := by rw [roundQ, h]

theorem le_roundQ (x : ℚ) (p : ℕ) : x - 1 / (2 * 10 ^ p) ≤ roundQ x p := by
  have h10 : (0 : ℚ) < 10 ^ p := by positivity
  rw [roundQ, le_div_iff₀ h10]
  have he : (x - 1 / (2 * 10 ^ p)) * 10 ^ p = x * 10 ^ p - 1/2 := by field_simp; ring
  rw [he]
  exact le_roundHalfEven _

theorem roundQ_le (x : ℚ) (p : ℕ) : roundQ x p ≤ x + 1 / (2 * 10 ^ p) := by
  have h10 : (0 : ℚ) < 10 ^ p := by positivity
  rw [roundQ, div_le_iff₀ h10]
  have he : (x + 1 / (2 * 10 ^ p)) * 10 ^ p = x * 10 ^ p + 1/2 := by field_simp; ring
  rw [he]
  exact roundHalfEven_le _

/-! Filter lemmas: the two successive pandas filters are one combined filter. -/

theorem get_yearly_rainfall_eq_rows_within (t : List Row) (b e : Option ℤ) :
    get_yearly_rainfall t b e = rows_within t b e := by
  cases b with
  | none =>
    cases e <;> simp [get_yearly_rainfall, rows_within, within]
  | some b' =>
    cases e with
    | none => simp [get_yearly_rainfall, rows_within, within]
    | some e' =>
      simp only [get_yearly_rainfall, rows_within, within, List.filter_filter]
      exact List.filter_congr (fun a _ => by rw [Bool.and_comm])

theorem main_filters_eq (t : List Row) (b e : ℤ) :
    (t.filter (fun r => decide (r.year ≤ e))).filter (fun r => decide (b ≤ r.year))
      = rows_within t (some b) (some e) := by
  simp only [rows_within, within, List.filter_filter]

/-- C1. The claim states that `average(range)` equals the exact quotient of the
rainfall sum by the number of years. Amended: the class implementation returns
that quotient rounded half-to-even at the configured precision (and 0 on an
empty range), while the `main.py` variant divides by `end_year - begin_year`
— the width of the range, not its number of years — and rounds to 2 places. -/
theorem c1_average_amended (t : List Row) (b e : Option ℤ) (p : ℕ) (b' e' : ℤ) :
    get_average_yearly_rainfall t b e p =
      (if rows_within t b e = [] then 0
       else roundQ (((rows_within t b e).map Row.rain).sum / ((rows_within t b e).length : ℚ)) p)
    ∧ main_get_average_yearly_rainfall t b' e' =
      roundQ (((rows_within t (some b') (some e')).map Row.rain).sum / ((e' : ℚ) - (b' : ℚ))) 2 := by
  constructor
  · simp only [get_average_yearly_rainfall, get_yearly_rainfall_eq_rows_within]
    by_cases h : rows_within t b e = []
    · simp [h]
    · have hlen : (rows_within t b e).length ≠ 0 := by
        simpa [List.length_eq_zero] using h
      simp [h, hlen]
  · simp only [main_get_average_yearly_rainfall, main_filters_eq]
    push_cast
    rfl

/-- C1 counterexample. On years 2000, 2001 with rainfall 100, 200, the
`main.py` average over [2000, 2001] is 300 while the sum over the range
divided by the number of years is 150; and on rainfall 0, 1 with precision 0
the class average is 0 while the exact quotient is 1/2. -/
theorem c1_average_counterexample :
    main_get_average_yearly_rainfall [⟨2000, 100⟩, ⟨2001, 200⟩] 2000 2001 = 300
    ∧ (((rows_within [⟨2000, 100⟩, ⟨2001, 200⟩] (some 2000) (some 2001)).map Row.rain).sum
        / ((rows_within [⟨2000, 100⟩, ⟨2001, 200⟩] (some 2000) (some 2001)).length : ℚ)) = 150
    ∧ (300 : ℚ) ≠ 150
    ∧ get_average_yearly_rainfall [⟨2000, 0⟩, ⟨2001, 1⟩] (some 2000) (some 2001) 0 = 0
    ∧ (((rows_within [⟨2000, 0⟩, ⟨2001, 1⟩] (some 2000) (some 2001)).map Row.rain).sum
        / ((rows_within [⟨2000, 0⟩, ⟨2001, 1⟩] (some 2000) (some 2001)).length : ℚ)) = 1/2
    ∧ (0 : ℚ) ≠ 1/2 := by
  have h300 : roundQ (300 : ℚ) 2 = 300 := by
    rw [roundQ_eval _ _ 30000 (roundHalfEven_eq_down _ 30000 (by norm_num) (by norm_num))]
    norm_num
  have hhalf : roundQ (1/2 : ℚ) 0 = 0 := by
    rw [roundQ_eval _ _ 0 (roundHalfEven_eq_tie_even _ 0 (by norm_num) (by norm_num))]
    norm_num
  refine ⟨?_, ?_, by norm_num, ?_, ?_, by norm_num⟩
  · norm_num [main_get_average_yearly_rainfall, List.filter, h300]
  · norm_num [rows_within, within, List.filter]
  · norm_num [get_average_yearly_rainfall, get_yearly_rainfall, List.filter, hhalf]
  · norm_num [rows_within, within, List.filter]

/-! Minimum and maximum of a list of rationals. -/

theorem foldl_min_le_init (xs : List ℚ) : ∀ a : ℚ, xs.foldl min a ≤ a := by
  induction xs with
  | nil => intro a; simp
  | cons x xs ih =>
    intro a
    rw [List.foldl_cons]
    exact le_trans (ih (min a x)) (min_le_left _ _)

theorem foldl_min_le_mem (xs : List ℚ) : ∀ (a y : ℚ), y ∈ xs → xs.foldl min a ≤ y := by
  induction xs with
  | nil => intro a y hy; cases hy
  | cons x xs ih =>
    intro a y hy
    rw [List.foldl_cons]
    rcases List.mem_cons.mp hy with h | h
    · subst h
      exact le_trans (foldl_min_le_init xs _) (min_le_right _ _)
    · exact ih _ _ h

theorem list_min_le (l : List ℚ) (y : ℚ) (hy : y ∈ l) : list_min l ≤ y := by
  cases l with
  | nil => cases hy
  | cons x xs =>
    rcases List.mem_cons.mp hy with h | h
    · rw [h]; exact foldl_min_le_init xs x
    · exact foldl_min_le_mem xs x y h

theorem init_le_foldl_max (xs : List ℚ) : ∀ a : ℚ, a ≤ xs.foldl max a := by
  induction xs with
  | nil => intro a; simp
  | cons x xs ih =>
    intro a
    rw [List.foldl_cons]
    exact le_trans (le_max_left _ _) (ih (max a x))

theorem mem_le_foldl_max (xs : List ℚ) : ∀ (a y : ℚ), y ∈ xs → y ≤ xs.foldl max a := by
  induction xs with
  | nil => intro a y hy; cases hy
  | cons x xs ih =>
    intro a y hy
    rw [List.foldl_cons]
    rcases List.mem_cons.mp hy with h | h
    · subst h
      exact le_trans (le_max_right _ _) (init_le_foldl_max xs _)
    · exact ih _ _ h

theorem le_list_max (l : List ℚ) (y : ℚ) (hy : y ∈ l) : y ≤ list_max l := by
  cases l with
  | nil => cases hy
  | cons x xs =>
    rcases List.mem_cons.mp hy with h | h
    · rw [h]; exact init_le_foldl_max xs x
    · exact mem_le_foldl_max xs x y h

theorem sum_le_length_mul (l : List ℚ) (M : ℚ) (h : ∀ y ∈ l, y ≤ M) :
    l.sum ≤ l.length * M := by
  induction l with
  | nil => simp
  | cons x xs ih =>
    simp only [List.sum_cons, List.length_cons]
    have hx := h x (List.mem_cons_self _ _)
    have hs := ih (fun y hy => h y (List.mem_cons_of_mem _ hy))
    push_cast
    rw [add_one_mul]
    linarith

theorem length_mul_le_sum (l : List ℚ) (m : ℚ) (h : ∀ y ∈ l, m ≤ y) :
    (l.length : ℚ) * m ≤ l.sum := by
  induction l with
  | nil => simp
  | cons x xs ih =>
    simp only [List.sum_cons, List.length_cons]
    have hx := h x (List.mem_cons_self _ _)
    have hs := ih (fun y hy => h y (List.mem_cons_of_mem _ hy))
    push_cast
    rw [add_one_mul]
    linarith

/-- C4. The claim states that the returned average lies between the minimum
and the maximum rainfall of a non-empty range even after rounding. Amended:
the exact quotient does lie between minimum and maximum, but rounding can move
the returned value outside that interval by at most half an ulp, so the
returned average is only guaranteed to lie within the interval widened by
`1 / (2 * 10 ^ p)` on each side. -/
theorem c4_average_bounds_amended (t : List Row) (b e : Option ℤ) (p : ℕ)
    (h : get_yearly_rainfall t b e ≠ []) :
    list_min ((get_yearly_rainfall t b e).map Row.rain) - 1 / (2 * 10 ^ p)
        ≤ get_average_yearly_rainfall t b e p
    ∧ get_average_yearly_rainfall t b e p
        ≤ list_max ((get_yearly_rainfall t b e).map Row.rain) + 1 / (2 * 10 ^ p) := by
  have hlen : (get_yearly_rainfall t b e).length ≠ 0 := by
    simpa [List.length_eq_zero] using h
  have hlenpos : (0 : ℚ) < (get_yearly_rainfall t b e).length :=
    Nat.cast_pos.mpr (Nat.pos_of_ne_zero hlen)
  have havg : get_average_yearly_rainfall t b e p =
      roundQ (((get_yearly_rainfall t b e).map Row.rain).sum /
        ((get_yearly_rainfall t b e).length : ℚ)) p := by
    simp [get_average_yearly_rainfall, hlen]
  have hmin : list_min ((get_yearly_rainfall t b e).map Row.rain)
      ≤ ((get_yearly_rainfall t b e).map Row.rain).sum /
        ((get_yearly_rainfall t b e).length : ℚ) := by
    rw [le_div_iff₀ hlenpos]
    have := length_mul_le_sum ((get_yearly_rainfall t b e).map Row.rain) _
      (fun y hy => list_min_le _ y hy)
    calc list_min ((get_yearly_rainfall t b e).map Row.rain) *
          ((get_yearly_rainfall t b e).length : ℚ)
        = (((get_yearly_rainfall t b e).map Row.rain).length : ℚ) *
          list_min ((get_yearly_rainfall t b e).map Row.rain) := by
          rw [List.length_map]; ring
      _ ≤ _ := this
  have hmax : ((get_yearly_rainfall t b e).map Row.rain).sum /
        ((get_yearly_rainfall t b e).length : ℚ)
      ≤ list_max ((get_yearly_rainfall t b e).map Row.rain) := by
    rw [div_le_iff₀ hlenpos]
    have := sum_le_length_mul ((get_yearly_rainfall t b e).map Row.rain) _
      (fun y hy => le_list_max _ y hy)
    calc ((get_yearly_rainfall t b e).map Row.rain).sum
        ≤ (((get_yearly_rainfall t b e).map Row.rain).length : ℚ) *
          list_max ((get_yearly_rainfall t b e).map Row.rain) := this
      _ = _ := by rw [List.length_map]; ring
  constructor
  · have := le_roundQ (((get_yearly_rainfall t b e).map Row.rain).sum /
      ((get_yearly_rainfall t b e).length : ℚ)) p
    rw [havg]
    linarith
  · have := roundQ_le (((get_yearly_rainfall t b e).map Row.rain).sum /
      ((get_yearly_rainfall t b e).length : ℚ)) p
    rw [havg]
    linarith

/-- C4 witness: the amended bounds at the one-row table with rainfall 2/5 and
precision 0. -/
theorem c4_average_bounds_witness :
    get_yearly_rainfall [⟨2000, 2/5⟩] none none ≠ []
    ∧ (list_min ((get_yearly_rainfall [⟨2000, 2/5⟩] none none).map Row.rain) - 1 / (2 * 10 ^ 0)
        ≤ get_average_yearly_rainfall [⟨2000, 2/5⟩] none none 0
      ∧ get_average_yearly_rainfall [⟨2000, 2/5⟩] none none 0
        ≤ list_max ((get_yearly_rainfall [⟨2000, 2/5⟩] none none).map Row.rain) + 1 / (2 * 10 ^ 0)) :=
  ⟨by simp [get_yearly_rainfall],
   c4_average_bounds_amended [⟨2000, 2/5⟩] none none 0 (by simp [get_yearly_rainfall])⟩

/-- C4 counterexample. On the one-row table with rainfall 2/5 at precision 0
the returned average is 0, which is strictly below the minimum rainfall 2/5 of
the range, so the claimed min/max bounds fail as stated. -/
theorem c4_average_bounds_counterexample :
    ¬ (list_min ((get_yearly_rainfall [⟨2000, 2/5⟩] none none).map Row.rain)
          ≤ get_average_yearly_rainfall [⟨2000, 2/5⟩] none none 0
        ∧ get_average_yearly_rainfall [⟨2000, 2/5⟩] none none 0
          ≤ list_max ((get_yearly_rainfall [⟨2000, 2/5⟩] none none).map Row.rain)) := by
  have hq : roundQ (2/5 : ℚ) 0 = 0 := by
    rw [roundQ_eval _ _ 0 (roundHalfEven_eq_down _ 0 (by norm_num) (by norm_num))]
    norm_num
  have havg : get_average_yearly_rainfall [⟨2000, 2/5⟩] none none 0 = 0 := by
    norm_num [get_average_yearly_rainfall, get_yearly_rainfall, hq]
  have hmin : list_min ((get_yearly_rainfall [⟨2000, 2/5⟩] none none).map Row.rain) = 2/5 := by
    norm_num [get_yearly_rainfall, list_min]
  intro hcl
  rw [havg, hmin] at hcl
  exact absurd hcl.1 (by norm_num)

/-- C2. For every start year within the validated query bounds — at least
`min_year_available` and at most `max_year_available - 29`, so that the
dataset covers the 30 years `[y, y+29]` — the `/rainfall/normal` route
answers exactly the average over the closed range `[y, y+29]`. -/
theorem c2_normal_route (t : List Row) (p : ℕ) (min_year max_year y : ℤ)
    (h1 : min_year ≤ y) (h2 : y ≤ max_year - 29) :
    get_rainfall_normal_route t p min_year max_year y =
      .ok (get_average_yearly_rainfall t (some y) (some (y + 29)) p) := by
  rw [get_rainfall_normal_route, if_pos ⟨h1, h2⟩]
  rfl

/-- C2 witness: the route applied at start year 1985 with span 1900-2020. -/
theorem c2_normal_route_witness :
    (1900 : ℤ) ≤ 1985 ∧ (1985 : ℤ) ≤ 2020 - 29
    ∧ get_rainfall_normal_route [⟨2000, 5⟩] 2 1900 2020 1985 =
        .ok (get_average_yearly_rainfall [⟨2000, 5⟩] (some 1985) (some (1985 + 29)) 2) :=
  ⟨by norm_num, by norm_num,
   c2_normal_route [⟨2000, 5⟩] 2 1900 2020 1985 (by norm_num) (by norm_num)⟩

/-- C3. The claim demands an explicit error whenever the normal used for the
percentage-of-normal column is 0. Amended: when the computed normal is 0,
`add_percentage_of_normal` raises no error — it silently returns with the
table unchanged and no column added (and `add_deviation_from_normal` in
main.py divides unguarded, silently producing a default column). -/
theorem c3_zero_normal_amended (t : List Row) (b e : Option ℤ) (p : ℕ)
    (h : get_average_yearly_rainfall t b e p = 0) :
    add_percentage_of_normal t b e p = .ok (t, none) := by
  simp [add_percentage_of_normal, h]

/-- C3 witness: the silent skip at a two-row all-zero table. -/
theorem c3_zero_normal_witness :
    get_average_yearly_rainfall [⟨2001, 0⟩, ⟨2002, 0⟩] none none 2 = 0
    ∧ add_percentage_of_normal [⟨2001, 0⟩, ⟨2002, 0⟩] none none 2 =
        .ok ([⟨2001, 0⟩, ⟨2002, 0⟩], none) := by
  have h : get_average_yearly_rainfall [⟨2001, 0⟩, ⟨2002, 0⟩] none none 2 = 0 := by
    have hq : roundQ (0 : ℚ) 2 = 0 := by
      rw [roundQ_eval _ _ 0 (roundHalfEven_eq_down _ 0 (by norm_num) (by norm_num))]
      norm_num
    norm_num [get_average_yearly_rainfall, get_yearly_rainfall, hq]
  exact ⟨h, c3_zero_normal_amended [⟨2001, 0⟩, ⟨2002, 0⟩] none none 2 h⟩

/-- C3 counterexample. On the one-row table with rainfall 0 the computed
normal is 0, yet `add_percentage_of_normal` returns successfully — `.ok` with
the table unchanged and no column — instead of failing with an error. -/
theorem c3_zero_normal_counterexample :
    get_average_yearly_rainfall [⟨2000, 0⟩] none none 2 = 0
    ∧ add_percentage_of_normal [⟨2000, 0⟩] none none 2 = .ok ([⟨2000, 0⟩], none) := by
  have h : get_average_yearly_rainfall [⟨2000, 0⟩] none none 2 = 0 := by
    have hq : roundQ (0 : ℚ) 2 = 0 := by
      rw [roundQ_eval _ _ 0 (roundHalfEven_eq_down _ 0 (by norm_num) (by norm_num))]
      norm_num
    norm_num [get_average_yearly_rainfall, get_yearly_rainfall, hq]
  refine ⟨h, ?_⟩
  simp [add_percentage_of_normal, h]

/-- C5 counterexample. The claim's `average` also names the main.py
implementation, and on precisely the claimed input — years 2000-2002 with
rainfall 100, 200, 300 over the range [2000, 2002] — main.py returns
`round(600 / (2002 - 2000), 2) = 300.0`, not the claimed 200.0. -/
theorem c5_example_counterexample :
    main_get_average_yearly_rainfall [⟨2000, 100⟩, ⟨2001, 200⟩, ⟨2002, 300⟩] 2000 2002 = 300
    ∧ (300 : ℚ) ≠ 200 := by
  have h300 : roundQ (300 : ℚ) 2 = 300 := by
    rw [roundQ_eval _ _ 30000 (roundHalfEven_eq_down _ 30000 (by norm_num) (by norm_num))]
    norm_num
  refine ⟨?_, by norm_num⟩
  norm_num [main_get_average_yearly_rainfall, List.filter, h300]

/-- C5. The claim states that on years 2000-2002 with rainfall 100, 200, 300
the average over [2000, 2002] is 200.0 and the population standard deviation
is about 81.65. Amended: the class implementation's average at precision 2 is
exactly 200, and the population variance over the range is 20000/3, strictly
between 81.64² and 81.65² — so the population standard deviation is 81.65 to
two decimal places; but the main.py variant, which divides by
`end_year - begin_year`, returns 300 on the same input. -/
theorem c5_example_amended :
    get_average_yearly_rainfall [⟨2000, 100⟩, ⟨2001, 200⟩, ⟨2002, 300⟩]
        (some 2000) (some 2002) 2 = 200
    ∧ get_standard_deviation_squared [⟨2000, 100⟩, ⟨2001, 200⟩, ⟨2002, 300⟩]
        (some 2000) (some 2002) = 20000/3
    ∧ ((8164/100 : ℚ)) ^ 2 < 20000/3 ∧ (20000/3 : ℚ) < ((8165/100 : ℚ)) ^ 2
    ∧ main_get_average_yearly_rainfall [⟨2000, 100⟩, ⟨2001, 200⟩, ⟨2002, 300⟩] 2000 2002
        = roundQ (600 / ((2002 : ℚ) - 2000)) 2
    ∧ roundQ (600 / ((2002 : ℚ) - 2000)) 2 = 300 := by
  have h200 : roundQ (200 : ℚ) 2 = 200 := by
    rw [roundQ_eval _ _ 20000 (roundHalfEven_eq_down _ 20000 (by norm_num) (by norm_num))]
    norm_num
  have h300 : roundQ (300 : ℚ) 2 = 300 := by
    rw [roundQ_eval _ _ 30000 (roundHalfEven_eq_down _ 30000 (by norm_num) (by norm_num))]
    norm_num
  refine ⟨?_, ?_, by norm_num, by norm_num, ?_, by norm_num [h300]⟩
  · norm_num [get_average_yearly_rainfall, get_yearly_rainfall, List.filter, h200]
  · norm_num [get_standard_deviation_squared, get_yearly_rainfall, List.filter]
  · norm_num [main_get_average_yearly_rainfall, List.filter]

/-- C7. A query whose year range is invalid — `begin_year` after `end_year`,
or either bound outside the dataset span `[min_year, max_year]` — is answered
with an error by the `/rainfall/average` route, before any average is
computed. -/
theorem c7_invalid_range_rejected (t : List Row) (p : ℕ) (min_year max_year b e : ℤ)
    (h : b < min_year ∨ max_year < b ∨ e < min_year ∨ max_year < e ∨ e < b) :
    ∃ msg, get_rainfall_average_route t p min_year max_year b (some e) = .error msg := by
  rw [get_rainfall_average_route]
  split_ifs with h1 h2 h3
  · exfalso
    simp only [Option.all_some, decide_eq_true_eq] at h2
    simp only [Option.getD_some] at h3
    omega
  · exact ⟨_, rfl⟩
  · exact ⟨_, rfl⟩
  · exact ⟨_, rfl⟩

/-- C7 witness: the query [2005, 2010] against the span [1900, 2000] is
rejected. -/
theorem c7_invalid_range_witness :
    ((2005 : ℤ) < 1900 ∨ (2000 : ℤ) < 2005 ∨ (2010 : ℤ) < 1900 ∨ (2000 : ℤ) < 2010
      ∨ (2010 : ℤ) < 2005)
    ∧ ∃ msg, get_rainfall_average_route [] 2 1900 2000 2005 (some 2010) = .error msg :=
  ⟨by omega, c7_invalid_range_rejected [] 2 1900 2000 2005 2010 (by omega)⟩

/-- Trichotomy bookkeeping for strict counting: the rows strictly above `a`,
strictly below `a`, and equal to `a` partition any table. -/
theorem count_partition (l : List Row) (a : ℚ) :
    (l.filter (fun r => decide (a < r.rain))).length
      + (l.filter (fun r => decide (r.rain < a))).length
      + (l.filter (fun r => decide (r.rain = a))).length = l.length := by
  induction l with
  | nil => rfl
  | cons r t ih =>
    rcases lt_trichotomy r.rain a with h | h | h
    · have h1 : ¬ (a < r.rain) := not_lt_of_gt h
      have h2 : ¬ (r.rain = a) := ne_of_lt h
      simp only [List.filter_cons]
      rw [if_neg (by simpa using h1), if_pos (by simpa using h), if_neg (by simpa using h2)]
      simp only [List.length_cons]
      omega
    · have h1 : ¬ (a < r.rain) := by rw [h]; exact lt_irrefl a
      have h2 : ¬ (r.rain < a) := by rw [h]; exact lt_irrefl a
      simp only [List.filter_cons]
      rw [if_neg (by simpa using h1), if_neg (by simpa using h2), if_pos (by simpa using h)]
      simp only [List.length_cons]
      omega
    · have h1 : ¬ (r.rain < a) := not_lt_of_gt h
      have h2 : ¬ (r.rain = a) := ne_of_gt h
      simp only [List.filter_cons]
      rw [if_pos (by simpa using h), if_neg (by simpa using h1), if_neg (by simpa using h2)]
      simp only [List.length_cons]
      omega

/-- C6. The claim states that the counts use strict comparisons against the
normal, with a year equal to the normal counted by neither. Amended: this
holds for the class implementation `get_years_above_average` /
`get_years_below_average`, which compare each rainfall strictly with the
computed average — above, below, and equal-to-average years partition the
range. The main.py pair instead compares the 2-decimal rounded
percentage-of-normal with 100.0, so a year whose rainfall exceeds the normal
by less than half an ulp of the percentage is counted by neither. -/
theorem c6_counts_amended (t : List Row) (b e : Option ℤ) (p : ℕ) :
    get_years_above_average t b e p + get_years_below_average t b e p
      + ((get_yearly_rainfall t b e).filter
          (fun r => decide (r.rain = get_average_yearly_rainfall t b e p))).length
      = (get_yearly_rainfall t b e).length :=
  count_partition (get_yearly_rainfall t b e) (get_average_yearly_rainfall t b e p)

/-- C6 counterexample. With normal 1000000, the single year 2000 with
rainfall 1000001 is strictly above the normal, but its rounded
percentage-of-normal is exactly 100.0, so main.py's `count_years_above_normal`
returns 0 rather than the claimed count 1 (and the year is counted neither
above nor below). -/
theorem c6_counts_counterexample :
    count_years_above_normal (add_deviation_from_normal [⟨2000, 1000001⟩] 1000000) = 0
    ∧ count_years_below_normal (add_deviation_from_normal [⟨2000, 1000001⟩] 1000000) = 0
    ∧ (([⟨2000, 1000001⟩] : List Row).filter
        (fun r => decide ((1000000 : ℚ) < r.rain))).length = 1 := by
  have hq : roundQ ((1000001 : ℚ) / 10000) 2 = 100 := by
    rw [roundQ_eval _ _ 10000 (roundHalfEven_eq_down _ 10000 (by norm_num) (by norm_num))]
    norm_num
  refine ⟨?_, ?_, by norm_num⟩
  · norm_num [count_years_above_normal, add_deviation_from_normal, List.filter, hq]
  · norm_num [count_years_below_normal, add_deviation_from_normal, List.filter, hq]

/-! Ordinary-least-squares algebra. -/

theorem nQ_cons (r : Row) (t : List Row) : nQ (r :: t) = nQ t + 1 := by
  simp [nQ]

theorem Sx_cons (r : Row) (t : List Row) : Sx (r :: t) = (r.year : ℚ) + Sx t := by
  simp [Sx]

theorem Sy_cons (r : Row) (t : List Row) : Sy (r :: t) = r.rain + Sy t := by
  simp [Sy]

theorem Sxx_cons (r : Row) (t : List Row) : Sxx (r :: t) = (r.year : ℚ) ^ 2 + Sxx t := by
  simp [Sxx]

theorem Sxy_cons (r : Row) (t : List Row) : Sxy (r :: t) = (r.year : ℚ) * r.rain + Sxy t := by
  simp [Sxy]

theorem Sxy_linear (l : List Row) (a b : ℚ) (hlin : ∀ r ∈ l, r.rain = a * r.year + b) :
    Sxy l = a * Sxx l + b * Sx l := by
  induction l with
  | nil => simp [Sxy, Sxx, Sx]
  | cons r t ih =>
    have hr := hlin r (List.mem_cons_self _ _)
    have ht := ih (fun r' hr' => hlin r' (List.mem_cons_of_mem _ hr'))
    rw [Sxy_cons, Sxx_cons, Sx_cons, hr, ht]
    ring

theorem Sy_linear (l : List Row) (a b : ℚ) (hlin : ∀ r ∈ l, r.rain = a * r.year + b) :
    Sy l = a * Sx l + nQ l * b := by
  induction l with
  | nil => simp [Sy, Sx, nQ]
  | cons r t ih =>
    have hr := hlin r (List.mem_cons_self _ _)
    have ht := ih (fun r' hr' => hlin r' (List.mem_cons_of_mem _ hr'))
    rw [Sy_cons, Sx_cons, nQ_cons, hr, ht]
    ring

theorem sum_sq_affine (l : List Row) (c d : ℚ) :
    (l.map (fun r => (c * (r.year : ℚ) + d) ^ 2)).sum
      = c ^ 2 * Sxx l + 2 * c * d * Sx l + nQ l * d ^ 2 := by
  induction l with
  | nil => simp [Sxx, Sx, nQ]
  | cons r t ih =>
    simp only [List.map_cons, List.sum_cons]
    rw [Sxx_cons, Sx_cons, nQ_cons, ih]
    ring

theorem sum_pos_of_mem (l : List ℚ) (h0 : ∀ x ∈ l, 0 ≤ x) (y : ℚ) (hy : y ∈ l)
    (hpos : 0 < y) : 0 < l.sum := by
  induction l with
  | nil => cases hy
  | cons x t ih =>
    rw [List.sum_cons]
    rcases List.mem_cons.mp hy with h | h
    · have ht : 0 ≤ t.sum := List.sum_nonneg (fun z hz => h0 z (List.mem_cons_of_mem _ hz))
      have hx : 0 < x := h ▸ hpos
      linarith
    · have hx : 0 ≤ x := h0 x (List.mem_cons_self _ _)
      have := ih (fun z hz => h0 z (List.mem_cons_of_mem _ hz)) h
      linarith

theorem nQ_pos_of_mem (l : List Row) (r : Row) (hr : r ∈ l) : 0 < nQ l := by
  have hlen : 0 < l.length := List.length_pos_of_mem hr
  have : (0 : ℚ) < l.length := by exact_mod_cast hlen
  simpa [nQ] using this

theorem ols_denom_pos (l : List Row) (ra rb : Row) (ha : ra ∈ l) (hb : rb ∈ l)
    (hne : ra.year ≠ rb.year) : 0 < nQ l * Sxx l - Sx l ^ 2 := by
  have hn : 0 < nQ l := nQ_pos_of_mem l ra ha
  have hTval : (l.map (fun r => (nQ l * (r.year : ℚ) - Sx l) ^ 2)).sum
      = nQ l * (nQ l * Sxx l - Sx l ^ 2) := by
    have hfun : (fun r : Row => (nQ l * (r.year : ℚ) - Sx l) ^ 2)
        = (fun r : Row => (nQ l * (r.year : ℚ) + (-(Sx l))) ^ 2) := by
      funext r; ring
    rw [hfun, sum_sq_affine l (nQ l) (-(Sx l))]
    ring
  have hterm : ∀ x ∈ l.map (fun r => (nQ l * (r.year : ℚ) - Sx l) ^ 2), 0 ≤ x := by
    intro x hx
    rcases List.mem_map.mp hx with ⟨r, _, rfl⟩
    positivity
  have hkey : nQ l * (ra.year : ℚ) - Sx l ≠ 0 ∨ nQ l * (rb.year : ℚ) - Sx l ≠ 0 := by
    by_contra hcon
    push_neg at hcon
    apply hne
    have hmul : nQ l * (ra.year : ℚ) = nQ l * (rb.year : ℚ) := by
      have h1 := hcon.1
      have h2 := hcon.2
      linarith
    have := mul_left_cancel₀ (ne_of_gt hn) hmul
    exact_mod_cast this
  have hTpos : 0 < (l.map (fun r => (nQ l * (r.year : ℚ) - Sx l) ^ 2)).sum := by
    rcases hkey with hk | hk
    · exact sum_pos_of_mem _ hterm _ (List.mem_map.mpr ⟨ra, ha, rfl⟩)
        (lt_of_le_of_ne (sq_nonneg _) (Ne.symm (pow_ne_zero 2 hk)))
    · exact sum_pos_of_mem _ hterm _ (List.mem_map.mpr ⟨rb, hb, rfl⟩)
        (lt_of_le_of_ne (sq_nonneg _) (Ne.symm (pow_ne_zero 2 hk)))
  have hprod : 0 < nQ l * (nQ l * Sxx l - Sx l ^ 2) := hTval ▸ hTpos
  rcases mul_pos_iff.mp hprod with ⟨_, hD⟩ | ⟨hn', _⟩
  · exact hD
  · linarith

/-- C8. The claim states that the regression returns the slope, R², and the
fitted value per year, and that a perfectly linear series recovers the true
slope with R² = 1.0. Amended: on a perfectly linear series with at least two
distinct years the exact OLS slope — returned unrounded by both
implementations — equals the true slope, every exact fitted value equals the
series value, and the main.py score (computed on the unrounded predictions)
is exactly 1; the class implementation instead scores the prediction column
after rounding it to the configured precision, which can drop its reported R²
below 1 on a perfectly linear series (see the counterexample). -/
theorem c8_regression_amended (l : List Row) (a b : ℚ) (ra rb : Row)
    (ha : ra ∈ l) (hb : rb ∈ l) (hne : ra.year ≠ rb.year)
    (hlin : ∀ r ∈ l, r.rain = a * r.year + b) (p : ℕ) :
    ols_slope l = a
    ∧ (add_linear_regression l p).2 = a
    ∧ apply_linear_regression_r2 l = 1
    ∧ ∀ r ∈ l, ols_fit l r.year = r.rain := by
  have hD := ols_denom_pos l ra rb ha hb hne
  have hDne : nQ l * Sxx l - Sx l ^ 2 ≠ 0 := ne_of_gt hD
  have hn : (0 : ℚ) < nQ l := nQ_pos_of_mem l ra ha
  have hSxy := Sxy_linear l a b hlin
  have hSy := Sy_linear l a b hlin
  have hslope : ols_slope l = a := by
    rw [ols_slope, hSxy, hSy]
    have hnum : nQ l * (a * Sxx l + b * Sx l) - Sx l * (a * Sx l + nQ l * b)
        = a * (nQ l * Sxx l - Sx l ^ 2) := by ring
    rw [hnum, mul_div_assoc, div_self hDne, mul_one]
  have hint : ols_intercept l = b := by
    rw [ols_intercept, hslope, hSy]
    have hsimp : a * Sx l + nQ l * b - a * Sx l = b * nQ l := by ring
    rw [hsimp, mul_div_assoc, div_self (ne_of_gt hn), mul_one]
  have hfit : ∀ r ∈ l, ols_fit l r.year = r.rain := by
    intro r hr
    rw [ols_fit, hslope, hint, hlin r hr]
  have hres : ss_res l = 0 := by
    rw [ss_res]
    apply List.sum_eq_zero
    intro x hx
    rcases List.mem_map.mp hx with ⟨r, hr, rfl⟩
    rw [hfit r hr]
    ring
  have hr2 : apply_linear_regression_r2 l = 1 := by
    rw [apply_linear_regression_r2, hres, r2_score]
    split_ifs <;> norm_num at *
  exact ⟨hslope, by simpa [add_linear_regression] using hslope, hr2, hfit⟩

/-- C8 witness: the series over years 0, 1 with rainfall 1, 3 is the line
`rain = 2 * year + 1`; the slope is 2 and the main.py score is 1. -/
theorem c8_regression_witness :
    ols_slope [⟨0, 1⟩, ⟨1, 3⟩] = 2 ∧ apply_linear_regression_r2 [⟨0, 1⟩, ⟨1, 3⟩] = 1 := by
  have h := c8_regression_amended [⟨0, 1⟩, ⟨1, 3⟩] 2 1 ⟨0, 1⟩ ⟨1, 3⟩
    (by simp) (by simp) (by norm_num)
    (by
      intro r hr
      simp only [List.mem_cons, List.mem_singleton] at hr
      rcases hr with rfl | rfl | h
      · norm_num
      · norm_num
      · cases h) 0
  exact ⟨h.1, h.2.2.1⟩

/-- C8 counterexample. The series over years 0, 1, 2 with rainfall 0, 1/2, 1
is exactly the line `rain = year / 2`, yet `add_linear_regression` at
precision 0 reports R² = 1/2, not the claimed 1.0: the exact fitted value 1/2
at year 1 is rounded to 0 before scoring. -/
theorem c8_regression_counterexample :
    ([⟨0, 0⟩, ⟨1, 1/2⟩, ⟨2, 1⟩] : List Row).map Row.rain
        = ([⟨0, 0⟩, ⟨1, 1/2⟩, ⟨2, 1⟩] : List Row).map (fun r => (1/2 : ℚ) * r.year + 0)
    ∧ (add_linear_regression [⟨0, 0⟩, ⟨1, 1/2⟩, ⟨2, 1⟩] 0).1 = 1/2
    ∧ ((1 : ℚ)/2) ≠ 1 := by
  have hq0 : roundQ (0 : ℚ) 0 = 0 := by
    rw [roundQ_eval _ _ 0 (roundHalfEven_eq_down _ 0 (by norm_num) (by norm_num))]
    norm_num
  have hqhalf : roundQ (1/2 : ℚ) 0 = 0 := by
    rw [roundQ_eval _ _ 0 (roundHalfEven_eq_tie_even _ 0 (by norm_num) (by norm_num))]
    norm_num
  have hq1 : roundQ (1 : ℚ) 0 = 1 := by
    rw [roundQ_eval _ _ 1 (roundHalfEven_eq_down _ 1 (by norm_num) (by norm_num))]
    norm_num
  have hslope : ols_slope [⟨0, 0⟩, ⟨1, 1/2⟩, ⟨2, 1⟩] = 1/2 := by
    norm_num [ols_slope, Sxy, Sxx, Sx, Sy, nQ]
  have hint : ols_intercept [⟨0, 0⟩, ⟨1, 1/2⟩, ⟨2, 1⟩] = 0 := by
    norm_num [ols_intercept, hslope, Sy, Sx, nQ]
  refine ⟨by norm_num, ?_, by norm_num⟩
  norm_num [add_linear_regression, r2_score, ss_res_rounded, ss_tot, ols_fit, hslope, hint,
    Sy, nQ, hq0, hqhalf, hq1]

/-- C9. For a well-formed rainfall DataFrame, `remove_column` returns `False`
and leaves the table untouched when the label is `Year`, `Rainfall`, or not a
column; otherwise it returns `True` and the result differs from the input
only by the absence of that one column — everything else, order and contents,
is unchanged. -/
theorem c9_remove_column (d : DataFrame) (label : String) (h : dfWF d) :
    ((label = "Year" ∨ label = "Rainfall" ∨ label ∉ dfLabels d) →
      remove_column d label = (false, d))
    ∧ (label ≠ "Year" → label ≠ "Rainfall" → label ∈ dfLabels d →
        (remove_column d label).1 = true
        ∧ ∃ pre vals post, d.cols = pre ++ (label, vals) :: post
            ∧ (remove_column d label).2.cols = pre ++ post) := by
  constructor
  · intro hcase
    rw [remove_column, if_neg]
    intro hmem
    have hmem' := List.mem_filter.mp hmem
    rcases hcase with rfl | rfl | hno
    · simp at hmem'
    · simp at hmem'
    · exact hno hmem'.1
  · intro hY hR hmem
    have hpred : (!(label == "Year") && !(label == "Rainfall")) = true := by
      simp [hY, hR]
    have hmem' : label ∈ (dfLabels d).filter (fun l => !(l == "Year") && !(l == "Rainfall")) :=
      List.mem_filter.mpr ⟨hmem, hpred⟩
    rw [remove_column, if_pos hmem']
    refine ⟨rfl, ?_⟩
    rcases List.mem_map.mp hmem with ⟨c, hc, hclabel⟩
    rcases List.append_of_mem hc with ⟨pre, post, hsplit⟩
    have hnodup : (pre.map Prod.fst ++ label :: post.map Prod.fst).Nodup := by
      have h1 : (d.cols.map Prod.fst).Nodup := h.1
      rw [hsplit, List.map_append, List.map_cons, hclabel] at h1
      exact h1
    rcases List.nodup_append.mp hnodup with ⟨hnpre, hncons, hdisj⟩
    have hlabelpre : label ∉ pre.map Prod.fst := fun hx => hdisj hx (List.mem_cons_self _ _)
    have hlabelpost : label ∉ post.map Prod.fst := (List.nodup_cons.mp hncons).1
    refine ⟨pre, c.2, post, ?_, ?_⟩
    · rw [hsplit, show ((label, c.2) : String × List ℚ) = c from by rw [← hclabel]]
    · rw [hsplit, List.filter_append, List.filter_cons, if_neg (by simp [hclabel])]
      have hpre : pre.filter (fun c => !(c.1 == label)) = pre :=
        List.filter_eq_self.mpr (fun x hx => by
          have hx1 : x.1 ≠ label :=
            fun heq => hlabelpre (heq ▸ List.mem_map_of_mem Prod.fst hx)
          simp [hx1])
      have hpost : post.filter (fun c => !(c.1 == label)) = post :=
        List.filter_eq_self.mpr (fun x hx => by
          have hx1 : x.1 ≠ label :=
            fun heq => hlabelpost (heq ▸ List.mem_map_of_mem Prod.fst hx)
          simp [hx1])
      rw [hpre, hpost]

/-- C9 witness: removing the derived `Savgol` column from a three-column
table removes exactly that column. -/
theorem c9_remove_column_witness :
    dfWF ⟨[("Year", [2000]), ("Rainfall", [5]), ("Savgol", [3])]⟩
    ∧ (remove_column ⟨[("Year", [2000]), ("Rainfall", [5]), ("Savgol", [3])]⟩ "Savgol").1 = true
    ∧ ∃ pre vals post,
        (⟨[("Year", [2000]), ("Rainfall", [5]), ("Savgol", [3])]⟩ : DataFrame).cols
          = pre ++ ("Savgol", vals) :: post
        ∧ (remove_column ⟨[("Year", [2000]), ("Rainfall", [5]), ("Savgol", [3])]⟩ "Savgol").2.cols
          = pre ++ post := by
  have h := c9_remove_column ⟨[("Year", [2000]), ("Rainfall", [5]), ("Savgol", [3])]⟩ "Savgol"
    (by constructor
        · decide
        · exact ⟨by decide, by decide⟩)
  exact ⟨⟨by decide, by decide, by decide⟩, (h.2 (by decide) (by decide) (by decide)).1,
    (h.2 (by decide) (by decide) (by decide)).2⟩

/-- C10. The claim states that the old and new monthly loaders agree on the
same parameters. Amended: the newer `retrieve_rainfall_data_with_constraints`
treats `end_month` as inclusive while the older `load_rainfall` treats it as
exclusive, so with the same arguments they disagree (see the counterexample);
they produce the same table exactly when the old call is shifted to
`end_month + 1` — in both the wraparound and the ordinary case — except at
`end_month + 1 = start_month`, where the two take different branches (and a
missing `end_month` means "the rest of the year" for the old loader but
"`start_month` alone" for the new one). -/
theorem c10_load_amended (m : MonthlyDF) (y : ℤ) (p : ℕ) (s e : ℕ) (hne : e + 1 ≠ s) :
    load_rainfall m y p s (some (e + 1))
      = retrieve_rainfall_data_with_constraints m y p s (some e) := by
  by_cases h : e < s
  · have h' : e + 1 < s := by omega
    simp [load_rainfall, retrieve_rainfall_data_with_constraints, h, h']
  · have h' : ¬ (e + 1 < s) := by omega
    simp [load_rainfall, retrieve_rainfall_data_with_constraints, h, h']

/-- C10 witness: on a 12-month table, the old loader for months `[6, 11)`
agrees with the new loader for months `[6, 10]`. -/
theorem c10_load_witness :
    (10 + 1 : ℕ) ≠ 6
    ∧ load_rainfall ⟨[2000], [[1], [2], [3], [4], [5], [6], [7], [8], [9], [10], [11], [12]]⟩
        2000 2 6 (some (10 + 1))
      = retrieve_rainfall_data_with_constraints
        ⟨[2000], [[1], [2], [3], [4], [5], [6], [7], [8], [9], [10], [11], [12]]⟩
        2000 2 6 (some 10) :=
  ⟨by omega,
   c10_load_amended ⟨[2000], [[1], [2], [3], [4], [5], [6], [7], [8], [9], [10], [11], [12]]⟩
     2000 2 6 10 (by omega)⟩

/-- C10 counterexample. On the 12-month table with one row (year 2000, month
`i` holding `i` mm), both loaders called with the same parameters
`start_month = 1`, `end_month = 1` disagree: the old loader selects the empty
slice `1:1` and yields rainfall 0, the new one selects column 1 and yields
rainfall 1. -/
theorem c10_load_counterexample :
    load_rainfall ⟨[2000], [[1], [2], [3], [4], [5], [6], [7], [8], [9], [10], [11], [12]]⟩
        2000 2 1 (some 1)
      = [⟨2000, 0⟩]
    ∧ retrieve_rainfall_data_with_constraints
        ⟨[2000], [[1], [2], [3], [4], [5], [6], [7], [8], [9], [10], [11], [12]]⟩
        2000 2 1 (some 1)
      = [⟨2000, 1⟩]
    ∧ ([⟨2000, 0⟩] : List Row) ≠ [⟨2000, 1⟩] := by
  have hq0 : roundQ (0 : ℚ) 2 = 0 := by
    rw [roundQ_eval _ _ 0 (roundHalfEven_eq_down _ 0 (by norm_num) (by norm_num))]
    norm_num
  have hq1 : roundQ (1 : ℚ) 2 = 1 := by
    rw [roundQ_eval _ _ 100 (roundHalfEven_eq_down _ 100 (by norm_num) (by norm_num))]
    norm_num
  refine ⟨?_, ?_, ?_⟩
  · norm_num [load_rainfall, monthCols, build_yearly, sum_rows, List.range_succ, hq0]
  · norm_num [retrieve_rainfall_data_with_constraints, monthCols, build_yearly, sum_rows,
      List.range_succ, hq1]
  · simp [Row.mk.injEq]

end BcnRainfall
